import Mathlib

/-!
Verification of the uniform-order request form (`src/app.py`).

The Python source is shallowly embedded below.  Strings are Lean `String`s
(lists of Unicode scalar values, matching Python `str`), DataFrame rows are
records, and the Streamlit session state is an explicit record transformed by
the button handlers.  Behaviour of Python builtins (`str.isdigit`, `int`,
`str.strip`, NFKC on full-width digits) and of the Streamlit selectbox is
modelled explicitly, with the modelling assumptions stated in doc comments.
-/

namespace UniformOrder

/-- The sentinel shown as the first dropdown option (`"--- 選択 ---"` in
`create_dropdown_options` / `get_selected_id`). -/
def placeholder : String := "--- 選択 ---"

/-- Decimal-digit value of a character, modelling the Unicode property
`Numeric_Type=Decimal` (general category Nd) on the blocks relevant to this
development: ASCII, Arabic-Indic, Extended Arabic-Indic, Devanagari, Bengali
and full-width digits.  Python `int(s)` accepts exactly strings of such
characters (it also allows signs, surrounding whitespace and underscores,
none of which can pass the `isdigit` guard that precedes every `int` call in
`src/app.py`, so they are not modelled). -/
def decimalDigitVal (c : Char) : Option Nat :=
  if '0' ≤ c ∧ c ≤ '9' then some (c.toNat - 0x30)
  else if '٠' ≤ c ∧ c ≤ '٩' then some (c.toNat - 0x660)
  else if '۰' ≤ c ∧ c ≤ '۹' then some (c.toNat - 0x6F0)
  else if '०' ≤ c ∧ c ≤ '९' then some (c.toNat - 0x966)
  else if '০' ≤ c ∧ c ≤ '৯' then some (c.toNat - 0x9E6)
  else if '０' ≤ c ∧ c ≤ '９' then some (c.toNat - 0xFF10)
  else none

/-- Per-character model of Python `str.isdigit`: true for characters of
`Numeric_Type=Decimal` or `Numeric_Type=Digit`.  The digit-typed,
non-decimal characters modelled here are the superscript digits
(U+00B9, U+00B2, U+00B3, U+2070, U+2074–U+2079) and the subscript digits
(U+2080–U+2089); each listed character genuinely satisfies `str.isdigit`
in CPython. -/
def pyIsDigitChar (c : Char) : Bool :=
  (decimalDigitVal c).isSome ||
  c == '¹' || c == '²' || c == '³' || c == '⁰' ||
  (decide ('⁴' ≤ c ∧ c ≤ '⁹')) || (decide ('₀' ≤ c ∧ c ≤ '₉'))

/-- Python `str.isdigit` on a whole string: non-empty and every character a
digit. -/
def pyStrIsDigit (s : String) : Bool :=
  !s.data.isEmpty && s.data.all pyIsDigitChar

/-- Python `int(s)` specialised to the call sites in `src/app.py`: succeeds
(`some`) on a non-empty string of decimal digits, returning its base-10
value; raises `ValueError` (`none`) otherwise — in particular on digit-typed
characters such as `'²'` that `str.isdigit` accepts. -/
def pyInt (s : String) : Option Int :=
  if !s.data.isEmpty && s.data.all (fun c => (decimalDigitVal c).isSome) then
    some (Int.ofNat (s.data.foldl (fun acc c => acc * 10 + (decimalDigitVal c).getD 0) 0))
  else none

/-- Per-character model of Python `str.strip`'s whitespace class (the common
space characters; every listed character satisfies `str.isspace` in
CPython). -/
def pyIsSpaceChar (c : Char) : Bool :=
  c == ' ' || c == '\t' || c == '\n' || c == '\r' ||
  c == '\x0b' || c == '\x0c' || c == ' ' || c == '　'

/-- Python `str.strip()`: drop leading and trailing whitespace. -/
def pyStrip (s : String) : String :=
  ⟨((s.data.dropWhile pyIsSpaceChar).reverse.dropWhile pyIsSpaceChar).reverse⟩

/-- `unicodedata.normalize("NFKC", ch)` restricted to full-width digits:
NFKC maps each of U+FF10–U+FF19 to the single corresponding ASCII digit
U+0030–U+0039 (a fact of the Unicode tables, modelled here). -/
def nfkcFullwidthDigit (c : Char) : Char :=
  Char.ofNat (c.toNat - 0xFF10 + 0x30)

/-- `normalize_digits` (src/app.py lines 62–67): per character, full-width
digits `'０' <= ch <= '９'` are NFKC-normalised, everything else passes
through unchanged. -/
def normalize_digits (s : String) : String :=
  ⟨s.data.map (fun ch =>
    if '０' ≤ ch ∧ ch ≤ '９' then nfkcFullwidthDigit ch else ch)⟩

/-- `create_dropdown_options` (lines 69–80) with `include_blank=True`, acting
on the list of display names of the DataFrame's rows. -/
def create_dropdown_options (names : List String) : List String :=
  if names.isEmpty then [placeholder] else placeholder :: names

/-- `get_selected_id` (lines 82–90): `None` for the placeholder or a missing
selection, otherwise the id of the first row whose name column equals the
selected name, or `None` when no row matches. -/
def get_selected_id {α : Type} (idOf : α → Int) (nameOf : α → String)
    (df : List α) (selected_name : Option String) : Option Int :=
  match selected_name with
  | none => none
  | some s =>
    if s = placeholder then none
    else
      match df.find? (fun r => nameOf r == s) with
      | some r => some (idOf r)
      | none => none

/-- A row of one of the plain master tables (applicants, locations,
patterns): an integer id and a display name. -/
structure Row where
  id : Int
  name : String
deriving DecidableEq

/-- A row of `files/uniforms.csv`: id, name and foreign key to a pattern. -/
structure UniformRow where
  uniform_id : Int
  uniform_name : String
  pattern_id : Int
deriving DecidableEq

/-- A row of `files/size.csv`: id, name and foreign key to a uniform. -/
structure SizeRow where
  size_id : Int
  size_name : String
  uniform_id : Int
deriving DecidableEq

/-- The five reference tables returned by `load_master_data`, an immutable
snapshot for the session. -/
structure Masters where
  applicants : List Row
  locations : List Row
  patterns : List Row
  uniforms : List UniformRow
  sizes : List SizeRow
deriving DecidableEq

/-- The widget values of one evaluation: the five selectbox strings and the
two text inputs. -/
structure Selections where
  applicant : String
  location : String
  pattern : String
  uniform : String
  size : String
  quantity : String
  user_name : String
deriving DecidableEq

/-- `quantity_normalized` (line 163): `normalize_digits(quantity_input) if
quantity_input else ""` — the empty string is falsy in Python. -/
def quantity_normalized (q : String) : String :=
  if q = "" then "" else normalize_digits q

/-- `is_quantity_valid` (line 164): `quantity_normalized.isdigit() and
quantity_normalized != ""`. -/
def is_quantity_valid (q : String) : Bool :=
  pyStrIsDigit (quantity_normalized q) && (quantity_normalized q != "")

/-- `all_fields_filled` (lines 166–174). -/
def all_fields_filled (sel : Selections) : Bool :=
  (sel.applicant != placeholder) &&
  (sel.location != placeholder) &&
  (sel.pattern != placeholder) &&
  (sel.uniform != placeholder) &&
  (sel.size != placeholder) &&
  is_quantity_valid sel.quantity &&
  (pyStrip sel.user_name != "")

/-- `selected_pattern_id` (line 139). -/
def selected_pattern_id (m : Masters) (sp : String) : Option Int :=
  get_selected_id Row.id Row.name m.patterns (some sp)

/-- `uniform_filtered` (lines 140–143): the uniforms of the selected pattern,
or an empty frame when no pattern is resolved. -/
def uniform_filtered (m : Masters) (sp : String) : List UniformRow :=
  match selected_pattern_id m sp with
  | some p => m.uniforms.filter (fun u => u.pattern_id == p)
  | none => []

/-- `uniform_options` (line 145). -/
def uniform_options (m : Masters) (sp : String) : List String :=
  create_dropdown_options ((uniform_filtered m sp).map UniformRow.uniform_name)

/-- `selected_uniform_id` (line 149): resolved against the filtered frame. -/
def selected_uniform_id (m : Masters) (sp su : String) : Option Int :=
  get_selected_id UniformRow.uniform_id UniformRow.uniform_name
    (uniform_filtered m sp) (some su)

/-- `size_filtered` (lines 150–153). -/
def size_filtered (m : Masters) (sp su : String) : List SizeRow :=
  match selected_uniform_id m sp su with
  | some u => m.sizes.filter (fun s => s.uniform_id == u)
  | none => []

/-- `size_options` (line 155). -/
def size_options (m : Masters) (sp su : String) : List String :=
  create_dropdown_options ((size_filtered m sp su).map SizeRow.size_name)

/-- `size_id` resolution as in the entry construction (line 203). -/
def selected_size_id (m : Masters) (sp su ss : String) : Option Int :=
  get_selected_id SizeRow.size_id SizeRow.size_name
    (size_filtered m sp su) (some ss)

/-- One finalized line item, the dict built at lines 194–207 / 219–232. -/
structure Entry where
  applicant_id : Option Int
  applicant : String
  location_id : Option Int
  location : String
  pattern_id : Option Int
  pattern : String
  uniform_id : Option Int
  uniform : String
  size_id : Option Int
  size : String
  quantity : Int
  user_name : String
deriving DecidableEq

/-- The Streamlit session state used by `src/app.py` (lines 92–103). -/
structure SessionState where
  entries : List Entry
  show_success : Bool
  current_applicant : Option String
  reset_trigger : Nat
deriving DecidableEq

/-- The initial session state (lines 92–103). -/
def initState : SessionState :=
  { entries := [], show_success := false, current_applicant := none, reset_trigger := 0 }

/-- The entry dict of lines 194–207, with the already-parsed quantity `q`
(the `int` call itself is performed by the handlers, which fail when the
parse does). -/
def build_entry (m : Masters) (sel : Selections) (q : Int) : Entry :=
  { applicant_id := get_selected_id Row.id Row.name m.applicants (some sel.applicant)
  , applicant := sel.applicant
  , location_id := get_selected_id Row.id Row.name m.locations (some sel.location)
  , location := sel.location
  , pattern_id := selected_pattern_id m sel.pattern
  , pattern := sel.pattern
  , uniform_id := selected_uniform_id m sel.pattern sel.uniform
  , uniform := sel.uniform
  , size_id := selected_size_id m sel.pattern sel.uniform sel.size
  , size := sel.size
  , quantity := q
  , user_name := pyStrip sel.user_name }

/-- The "続けて入力" (add and continue) handler, lines 192–215: guarded by
`all_fields_filled`; appends the entry, remembers the applicant for pre-fill
and bumps `reset_trigger`.  `none` models an uncaught exception (the only
fallible step is `int(quantity_normalized)`); when the guard is false the
handler body does not run and the state is unchanged. -/
def add_entry_handler (m : Masters) (sel : Selections) (st : SessionState) :
    Option SessionState :=
  if all_fields_filled sel then
    match pyInt (quantity_normalized sel.quantity) with
    | some q =>
      some { st with
        entries := st.entries ++ [build_entry m sel q]
        current_applicant := some sel.applicant
        reset_trigger := st.reset_trigger + 1 }
    | none => none
  else some st

/-- The "入力終了して送信" (finalize) handler, lines 217–243: same append, then
sets `show_success` and clears the remembered applicant. -/
def finish_entry_handler (m : Masters) (sel : Selections) (st : SessionState) :
    Option SessionState :=
  if all_fields_filled sel then
    match pyInt (quantity_normalized sel.quantity) with
    | some q =>
      some { st with
        entries := st.entries ++ [build_entry m sel q]
        show_success := true
        current_applicant := none
        reset_trigger := st.reset_trigger + 1 }
    | none => none
  else some st

/-- The "新しい申請を開始" (reset) handler, lines 302–307. -/
def reset_handler (st : SessionState) : SessionState :=
  { entries := [], show_success := false, current_applicant := none
  , reset_trigger := st.reset_trigger + 1 }

/-- Modelled from the Streamlit library: a selectbox with a fixed user key
keeps its stored value across reruns when that value is still among the
options, and otherwise falls back to the option at the default index 0
(the placeholder heads every option list built by
`create_dropdown_options`). -/
def selectbox_value (options : List String) (stored : Option String) : String :=
  match stored with
  | some v => if options.contains v then v else options.headD placeholder
  | none => options.headD placeholder

/-- The uniform selectbox value on the evaluation after the pattern selection
becomes `newPattern`, with `storedUniform` the previously stored value of the
`uniform_{reset_trigger}` widget (lines 145–146). -/
def rerun_uniform_value (m : Masters) (newPattern : String)
    (storedUniform : Option String) : String :=
  selectbox_value (uniform_options m newPattern) storedUniform

/-- The size selectbox value on the same evaluation, after the uniform value
has been recomputed (lines 155–156). -/
def rerun_size_value (m : Masters) (newPattern newUniform : String)
    (storedSize : Option String) : String :=
  selectbox_value (size_options m newPattern newUniform) storedSize

/-- The states of one session reachable from the initial state through the
three button handlers.  A handler returning `none` (an exception) aborts the
script run and leaves the session state as it was before the failing
statement, so it produces no new state; the reset button only exists on the
review screen (line 247: `show_success and entries`). -/
inductive Reachable (m : Masters) : SessionState → Prop where
  | init : Reachable m initState
  | add {st st' : SessionState} {sel : Selections} :
      Reachable m st → add_entry_handler m sel st = some st' → Reachable m st'
  | finish {st st' : SessionState} {sel : Selections} :
      Reachable m st → finish_entry_handler m sel st = some st' → Reachable m st'
  | reset {st : SessionState} :
      Reachable m st → st.show_success = true → st.entries ≠ [] →
      Reachable m (reset_handler st)

/-- `quantityValid` as §4.4 of the spec words it: the normalized quantity is
non-empty and consists only of ASCII digits `'0'..'9'`.  Stated for
comparison with the source's `is_quantity_valid`. -/
def quantityValidSpec (q : String) : Bool :=
  !(quantity_normalized q).data.isEmpty &&
  (quantity_normalized q).data.all (fun c => decide ('0' ≤ c ∧ c ≤ '9'))

/-! ### Concrete fixtures used to evaluate the definitions -/

/-- A small master-data snapshot.  The display name "Shirt" occurs under both
patterns, as the spec allows (names are not guaranteed unique). -/
def m0 : Masters :=
  { applicants := [⟨1, "Tanaka"⟩]
  , locations := [⟨1, "HQ"⟩]
  , patterns := [⟨1, "A"⟩, ⟨2, "B"⟩]
  , uniforms := [⟨1, "Shirt", 1⟩, ⟨2, "Shirt", 2⟩, ⟨3, "Coat", 1⟩]
  , sizes := [⟨1, "M", 1⟩, ⟨2, "M", 2⟩, ⟨3, "L", 3⟩] }

/-- A fully filled selection whose quantity input is the string "0". -/
def sel0 : Selections :=
  { applicant := "Tanaka", location := "HQ", pattern := "A", uniform := "Shirt"
  , size := "M", quantity := "0", user_name := "Suzuki" }

/-! ### Helper lemmas -/

theorem char_toNat_ofNat_of_valid (n : Nat) (h : Nat.isValidChar n) :
    (Char.ofNat n).toNat = n := by
  unfold Char.ofNat
  rw [dif_pos h]
  unfold Char.ofNatAux Char.toNat
  simp [UInt32.toNat, UInt32.ofNatTruncate, UInt32.ofNat]

theorem pyIsDigitChar_of_ascii {c : Char} (h : '0' ≤ c ∧ c ≤ '9') :
    pyIsDigitChar c = true := by
  unfold pyIsDigitChar decimalDigitVal
  rw [if_pos h]
  simp

theorem pyInt_nonneg {s : String} {q : Int} (h : pyInt s = some q) : 0 ≤ q := by
  unfold pyInt at h
  split at h
  · exact (Option.some_injective _ h.symm) ▸ Int.ofNat_nonneg _
  · exact absurd h (by simp)

theorem pyInt_some_of_decimal {s : String} (h1 : s.data ≠ [])
    (h2 : s.data.all (fun c => (decimalDigitVal c).isSome) = true) :
    pyInt s = some (Int.ofNat
      (s.data.foldl (fun acc c => acc * 10 + (decimalDigitVal c).getD 0) 0)) := by
  unfold pyInt
  rw [if_pos]
  simp [h1, h2]

/-- Destructor for a successful run of the add handler. -/
theorem add_entry_handler_eq_some {m : Masters} {sel : Selections}
    {st st' : SessionState} (h : add_entry_handler m sel st = some st') :
    (all_fields_filled sel = false ∧ st' = st) ∨
    (all_fields_filled sel = true ∧
      ∃ q, pyInt (quantity_normalized sel.quantity) = some q ∧
        st' = { st with
          entries := st.entries ++ [build_entry m sel q]
          current_applicant := some sel.applicant
          reset_trigger := st.reset_trigger + 1 }) := by
  unfold add_entry_handler at h
  by_cases hf : all_fields_filled sel = true
  · rw [if_pos hf] at h
    rcases hq : pyInt (quantity_normalized sel.quantity) with _ | q
    · rw [hq] at h; exact absurd h (by simp)
    · rw [hq] at h
      exact Or.inr ⟨hf, q, rfl, (Option.some_injective _ h).symm⟩
  · rw [if_neg hf] at h
    exact Or.inl ⟨Bool.not_eq_true _ ▸ eq_false_of_ne_true hf,
      (Option.some_injective _ h).symm⟩

/-- Destructor for a successful run of the finalize handler. -/
theorem finish_entry_handler_eq_some {m : Masters} {sel : Selections}
    {st st' : SessionState} (h : finish_entry_handler m sel st = some st') :
    (all_fields_filled sel = false ∧ st' = st) ∨
    (all_fields_filled sel = true ∧
      ∃ q, pyInt (quantity_normalized sel.quantity) = some q ∧
        st' = { st with
          entries := st.entries ++ [build_entry m sel q]
          show_success := true
          current_applicant := none
          reset_trigger := st.reset_trigger + 1 }) := by
  unfold finish_entry_handler at h
  by_cases hf : all_fields_filled sel = true
  · rw [if_pos hf] at h
    rcases hq : pyInt (quantity_normalized sel.quantity) with _ | q
    · rw [hq] at h; exact absurd h (by simp)
    · rw [hq] at h
      exact Or.inr ⟨hf, q, rfl, (Option.some_injective _ h).symm⟩
  · rw [if_neg hf] at h
    exact Or.inl ⟨Bool.not_eq_true _ ▸ eq_false_of_ne_true hf,
      (Option.some_injective _ h).symm⟩

theorem mem_create_dropdown_options {names : List String} {v : String} :
    v ∈ create_dropdown_options names ↔ v = placeholder ∨ v ∈ names := by
  unfold create_dropdown_options
  by_cases h : names.isEmpty
  · rw [if_pos h, List.isEmpty_iff.mp h]
    simp
  · rw [if_neg h]
    simp

theorem headD_create_dropdown_options (names : List String) :
    (create_dropdown_options names).headD placeholder = placeholder := by
  unfold create_dropdown_options
  by_cases h : names.isEmpty
  · rw [if_pos h]; rfl
  · rw [if_neg h]; rfl

/-- The selectbox model against an option list built by
`create_dropdown_options`: the stored value persists iff it is one of the
new display names; any other stored value falls back to the placeholder. -/
theorem contains_iff_mem_str {l : List String} {v : String} :
    l.contains v = true ↔ v ∈ l := by
  unfold List.contains
  exact List.elem_iff

theorem selectbox_value_create {names : List String} {v : String} :
    (v ∉ names → selectbox_value (create_dropdown_options names) (some v) = placeholder) ∧
    (v ∈ names → selectbox_value (create_dropdown_options names) (some v) = v) := by
  constructor
  · intro hv
    show (if (create_dropdown_options names).contains v = true then v
          else (create_dropdown_options names).headD placeholder) = placeholder
    by_cases hp : v = placeholder
    · rw [if_pos]
      · exact hp
      · exact contains_iff_mem_str.mpr (mem_create_dropdown_options.mpr (Or.inl hp))
    · rw [if_neg, headD_create_dropdown_options]
      intro hc
      rcases mem_create_dropdown_options.mp (contains_iff_mem_str.mp hc) with h | h
      · exact hp h
      · exact hv h
  · intro hv
    show (if (create_dropdown_options names).contains v = true then v
          else (create_dropdown_options names).headD placeholder) = v
    rw [if_pos (contains_iff_mem_str.mpr (mem_create_dropdown_options.mpr (Or.inr hv)))]

theorem is_quantity_valid_iff {q : String} :
    is_quantity_valid q = true ↔
      quantity_normalized q ≠ "" ∧
      (quantity_normalized q).data.all pyIsDigitChar = true := by
  unfold is_quantity_valid pyStrIsDigit
  rw [Bool.and_eq_true, Bool.and_eq_true, bne_iff_ne]
  constructor
  · rintro ⟨⟨_, h2⟩, h3⟩
    exact ⟨h3, h2⟩
  · rintro ⟨h1, h2⟩
    refine ⟨⟨?_, h2⟩, h1⟩
    rw [Bool.not_eq_true', List.isEmpty_eq_false]
    intro hd
    exact h1 (String.ext_iff.mpr (by simp [hd]))

/-- Unpack `all_fields_filled` into its seven conjuncts. -/
theorem all_fields_filled_eq_true {sel : Selections} :
    all_fields_filled sel = true ↔
      sel.applicant ≠ placeholder ∧ sel.location ≠ placeholder ∧
      sel.pattern ≠ placeholder ∧ sel.uniform ≠ placeholder ∧
      sel.size ≠ placeholder ∧ is_quantity_valid sel.quantity = true ∧
      pyStrip sel.user_name ≠ "" := by
  unfold all_fields_filled
  simp only [Bool.and_eq_true, bne_iff_ne]
  tauto

/-- When a non-placeholder name occurs in the table, `get_selected_id`
resolves it to the id of some matching row of the table. -/
theorem get_selected_id_some_of_mem {α : Type} (idOf : α → Int)
    (nameOf : α → String) {df : List α} {s : String} (hne : s ≠ placeholder)
    (hmem : ∃ r ∈ df, nameOf r = s) :
    ∃ r₀ ∈ df, nameOf r₀ = s ∧
      get_selected_id idOf nameOf df (some s) = some (idOf r₀) := by
  rcases hfind : df.find? (fun r => nameOf r == s) with _ | r₀
  · rcases hmem with ⟨r, hr, hrs⟩
    have := List.find?_eq_none.mp hfind r hr
    simp [hrs] at this
  · refine ⟨r₀, List.mem_of_find?_eq_some hfind, ?_, ?_⟩
    · have := List.find?_some hfind
      simpa using this
    · show (if s = placeholder then none
            else match df.find? (fun r => nameOf r == s) with
                 | some r => some (idOf r)
                 | none => none) = some (idOf r₀)
      rw [if_neg hne, hfind]

/-! ### Claim theorems -/

/-- C1, counterexample: the Arabic-Indic digit `'٣'` (U+0663) is untouched by
`normalize_digits`, is not an ASCII digit, yet `is_quantity_valid` accepts it,
because Python `str.isdigit` is satisfied by every Unicode decimal digit.  So
`quantityValid` is not equivalent to the normalized string being non-empty
and all-ASCII-digit, and a quantity whose normalization contains a
non-ASCII-digit character can be valid. -/
theorem arabic_digit_quantity_valid_but_not_ascii :
    quantity_normalized "٣" = "٣" ∧
    quantityValidSpec "٣" = false ∧
    is_quantity_valid "٣" = true := by decide

/-- C1, amended: `quantityValid` holds exactly when the normalized quantity
string is non-empty and every character satisfies Python `str.isdigit`
(Unicode decimal digits and digit-typed characters) — a strict superset of
the ASCII digits; a non-empty all-ASCII-digit normalized quantity is in
particular valid. -/
theorem is_quantity_valid_characterization (q : String) :
    (is_quantity_valid q = true ↔
      quantity_normalized q ≠ "" ∧
      (quantity_normalized q).data.all pyIsDigitChar = true) ∧
    (quantityValidSpec q = true → is_quantity_valid q = true) := by
  refine ⟨is_quantity_valid_iff, fun h => ?_⟩
  unfold quantityValidSpec at h
  rw [Bool.and_eq_true, Bool.not_eq_true', List.isEmpty_eq_false] at h
  refine is_quantity_valid_iff.mpr ⟨?_, ?_⟩
  · intro hd
    exact h.1 (by simp [String.ext_iff.mp hd])
  · rw [List.all_eq_true] at h ⊢
    intro c hc
    exact pyIsDigitChar_of_ascii (of_decide_eq_true (h.2 c hc))

/-- C1, witness for the amended theorem at the concrete input "5". -/
theorem is_quantity_valid_characterization_witness :
    is_quantity_valid "5" = true :=
  (is_quantity_valid_characterization "5").2 (by decide)

/-- C2, code bug: with every dropdown selected consistently, user name
"Suzuki" and quantity `"²"` (U+00B2 SUPERSCRIPT TWO), the validation guard
`all_fields_filled` is true — Python `str.isdigit` accepts superscript
digits — yet `int(quantity_normalized)` raises `ValueError` inside both the
add and the finalize handler (modelled as `none`), so an exception does
propagate out of an action handler and the session is neither transitioned
nor left alone by a guarded no-op. -/
theorem superscript_quantity_passes_guard_int_raises :
    all_fields_filled { sel0 with quantity := "²" } = true ∧
    add_entry_handler m0 { sel0 with quantity := "²" } initState = none ∧
    finish_entry_handler m0 { sel0 with quantity := "²" } initState = none := by
  decide

/-- C3, counterexample: the input `quantity_raw = "0"` passes validation
(`all_fields_filled` is true) and `append` produces an `Entry` whose
`quantity` equals `0`, so appended quantities are not always positive. -/
theorem zero_quantity_append_produces_zero_entry :
    all_fields_filled sel0 = true ∧
    (add_entry_handler m0 sel0 initState).map
      (fun s => s.entries.map Entry.quantity) = some (0 :: []) := by decide

/-- C3, amended: every `Entry` ever appended to the session's entries list
has a quantity that is a non-negative integer — never negative, never
non-numeric — but it may be zero, since `quantity_raw = "0"` passes the
digit-only validation and parses to `0`. -/
theorem reachable_entries_quantity_nonneg (m : Masters) (st : SessionState)
    (h : Reachable m st) : ∀ e ∈ st.entries, 0 ≤ e.quantity := by
  induction h with
  | init => intro e he; exact absurd he (by simp [initState])
  | add _ hadd ih =>
    rcases add_entry_handler_eq_some hadd with ⟨_, rfl⟩ | ⟨_, q, hq, rfl⟩
    · exact ih
    · intro e he
      rcases List.mem_append.mp he with he | he
      · exact ih e he
      · rw [List.mem_singleton.mp he]
        exact pyInt_nonneg hq
  | finish _ hfin ih =>
    rcases finish_entry_handler_eq_some hfin with ⟨_, rfl⟩ | ⟨_, q, hq, rfl⟩
    · exact ih
    · intro e he
      rcases List.mem_append.mp he with he | he
      · exact ih e he
      · rw [List.mem_singleton.mp he]
        exact pyInt_nonneg hq
  | reset _ _ _ _ =>
    intro e he
    exact absurd he (by simp [reset_handler])

/-- C3, witness for the amended theorem: the state reached by one add of
`sel0` from the initial state. -/
def st1 : SessionState :=
  { entries := [build_entry m0 sel0 0], show_success := false
  , current_applicant := some "Tanaka", reset_trigger := 1 }

/-- C3, witness: the amended theorem applied to the concrete reachable state
`st1`. -/
theorem reachable_entries_quantity_nonneg_witness :
    0 ≤ (build_entry m0 sel0 0).quantity :=
  reachable_entries_quantity_nonneg m0 st1
    (@Reachable.add m0 initState st1 sel0 Reachable.init (by decide))
    (build_entry m0 sel0 0) (by simp [st1])

/-- C6: `all_fields_filled` is true iff each of the five selections differs
from the placeholder, the quantity passes the digit-validity check, and the
user name stripped of surrounding whitespace is non-empty. -/
theorem all_fields_filled_characterization (sel : Selections) :
    all_fields_filled sel = true ↔
      sel.applicant ≠ placeholder ∧ sel.location ≠ placeholder ∧
      sel.pattern ≠ placeholder ∧ sel.uniform ≠ placeholder ∧
      sel.size ≠ placeholder ∧ is_quantity_valid sel.quantity = true ∧
      pyStrip sel.user_name ≠ "" :=
  all_fields_filled_eq_true

/-- C9: `normalize_digits` returns a string of the same length in which each
full-width digit (U+FF10–U+FF19) is replaced by the ASCII digit of the same
numeric value (codepoint `0x30 + (c - 0xFF10)`) and every other character is
unchanged.  Totality is inherent: the embedding is a total Lean function,
matching the Python per-character comprehension, which cannot fail. -/
theorem normalize_digits_characterization (s : String) :
    (normalize_digits s).data.length = s.data.length ∧
    ∀ (i : Nat) (h1 : i < s.data.length)
      (h2 : i < (normalize_digits s).data.length),
      (('０' ≤ s.data[i] ∧ s.data[i] ≤ '９') →
        ((normalize_digits s).data[i]).toNat = 0x30 + (s.data[i].toNat - 0xFF10)) ∧
      (¬('０' ≤ s.data[i] ∧ s.data[i] ≤ '９') →
        (normalize_digits s).data[i] = s.data[i]) := by
  have hdata : (normalize_digits s).data =
      s.data.map (fun ch =>
        if '０' ≤ ch ∧ ch ≤ '９' then nfkcFullwidthDigit ch else ch) := rfl
  constructor
  · rw [hdata, List.length_map]
  · intro i h1 h2
    have hgot : (normalize_digits s).data[i] =
        (fun ch => if '０' ≤ ch ∧ ch ≤ '９' then nfkcFullwidthDigit ch else ch)
          (s.data[i]) := by
      simp only [hdata]
      rw [List.getElem_map]
    constructor
    · intro hfw
      rw [hgot]
      simp only [if_pos hfw]
      unfold nfkcFullwidthDigit
      have hlo : 0xFF10 ≤ (s.data[i]).toNat := by
        have := hfw.1
        rw [Char.le_def] at this
        exact this
      have hhi : (s.data[i]).toNat ≤ 0xFF19 := by
        have := hfw.2
        rw [Char.le_def] at this
        exact this
      rw [char_toNat_ofNat_of_valid _ (Or.inl (by omega))]
      omega
    · intro hfw
      rw [hgot]
      simp only [if_neg hfw]

/-- C9, witness: the characterization applied to the concrete string "１a":
position 0 (a full-width digit) maps to the ASCII digit of the same value,
position 1 passes through unchanged. -/
theorem normalize_digits_characterization_witness :
    ((normalize_digits "１a").data.get ⟨0, by decide⟩).toNat
        = 0x30 + (("１a".data.get ⟨0, by decide⟩).toNat - 0xFF10) ∧
    (normalize_digits "１a").data.get ⟨1, by decide⟩
        = "１a".data.get ⟨1, by decide⟩ := by
  have h := normalize_digits_characterization "１a"
  constructor
  · have h0 := (h.2 0 (by decide) (by decide)).1 (by decide)
    simpa using h0
  · have h1 := (h.2 1 (by decide) (by decide)).2 (by decide)
    simpa using h1

/-- C4, counterexample: with the display name "Shirt" occurring under both
patterns (names are not required to be unique), a consistent selection
(pattern "A", uniform "Shirt", size "M") followed by a pattern change to "B"
does not reset the child selectboxes: the stored values survive into the
next evaluation because they are still among the newly filtered options, so
neither uniform nor size is back to the placeholder. -/
theorem pattern_change_stale_children_persist :
    ("A" : String) ≠ "B" ∧
    "Shirt" ∈ uniform_options m0 "A" ∧
    "M" ∈ size_options m0 "A" "Shirt" ∧
    rerun_uniform_value m0 "B" (some "Shirt") = "Shirt" ∧
    rerun_size_value m0 "B" "Shirt" (some "M") = "M" ∧
    ("Shirt" : String) ≠ placeholder ∧ ("M" : String) ≠ placeholder := by
  decide

/-- C4, amended: after a change of the pattern selection, the uniform
selectbox is back to the placeholder in the next evaluation whenever its
previously stored value is not among the display names of the new pattern's
filtered uniform rows — and likewise the size selectbox whenever its stored
value is not among the new filtered size names; a stored display name that
does occur under the new parent persists instead (and then re-resolves
against the new parent's filtered table). -/
theorem child_selectbox_reset_characterization (m : Masters) (p v u w : String) :
    (v ∉ (uniform_filtered m p).map UniformRow.uniform_name →
      rerun_uniform_value m p (some v) = placeholder) ∧
    (v ∈ (uniform_filtered m p).map UniformRow.uniform_name →
      rerun_uniform_value m p (some v) = v) ∧
    (w ∉ (size_filtered m p u).map SizeRow.size_name →
      rerun_size_value m p u (some w) = placeholder) ∧
    (w ∈ (size_filtered m p u).map SizeRow.size_name →
      rerun_size_value m p u (some w) = w) := by
  refine ⟨fun hv => ?_, fun hv => ?_, fun hw => ?_, fun hw => ?_⟩
  · exact selectbox_value_create.1 hv
  · exact selectbox_value_create.2 hv
  · exact selectbox_value_create.1 hw
  · exact selectbox_value_create.2 hw

/-- C4, witness for the amended theorem: "Coat" exists only under pattern
"A", so after a change to pattern "B" the uniform selectbox resets to the
placeholder. -/
theorem child_selectbox_reset_characterization_witness :
    rerun_uniform_value m0 "B" (some "Coat") = placeholder :=
  (child_selectbox_reset_characterization m0 "B" "Coat" "Shirt" "M").1 (by decide)

/-- Core of C5: the entry dict built from a selection whose uniform and size
come from the cascaded option lists and which passes validation references a
uniform row of the snapshot with the entry's own `pattern_id`, and a size
row of the snapshot with the entry's own `uniform_id`. -/
theorem build_entry_integrity (m : Masters) (sel : Selections) (q : Int)
    (hu : sel.uniform ∈ uniform_options m sel.pattern)
    (hs : sel.size ∈ size_options m sel.pattern sel.uniform)
    (hf : all_fields_filled sel = true) :
    (∃ u ∈ m.uniforms,
      (build_entry m sel q).uniform_id = some u.uniform_id ∧
      (build_entry m sel q).pattern_id = some u.pattern_id) ∧
    (∃ z ∈ m.sizes,
      (build_entry m sel q).size_id = some z.size_id ∧
      (build_entry m sel q).uniform_id = some z.uniform_id) := by
  have hff := all_fields_filled_eq_true.mp hf
  have hupl : sel.uniform ≠ placeholder := hff.2.2.2.1
  have hspl : sel.size ≠ placeholder := hff.2.2.2.2.1
  rcases mem_create_dropdown_options.mp hu with h | h
  · exact absurd h hupl
  rcases List.mem_map.mp h with ⟨r, hrmem, hrname⟩
  rcases get_selected_id_some_of_mem UniformRow.uniform_id UniformRow.uniform_name
      hupl ⟨r, hrmem, hrname⟩ with ⟨r₀, hr₀mem, _, hr₀id⟩
  have huid : selected_uniform_id m sel.pattern sel.uniform = some r₀.uniform_id := hr₀id
  rcases hp : selected_pattern_id m sel.pattern with _ | p
  · rw [uniform_filtered, hp] at hr₀mem
    exact absurd hr₀mem (by simp)
  · rw [uniform_filtered, hp] at hr₀mem
    simp only [List.mem_filter, beq_iff_eq] at hr₀mem
    rcases mem_create_dropdown_options.mp hs with h2 | h2
    · exact absurd h2 hspl
    rcases List.mem_map.mp h2 with ⟨z, hzmem, hzname⟩
    rcases get_selected_id_some_of_mem SizeRow.size_id SizeRow.size_name
        hspl ⟨z, hzmem, hzname⟩ with ⟨z₀, hz₀mem, _, hz₀id⟩
    rw [size_filtered, huid] at hz₀mem
    simp only [List.mem_filter, beq_iff_eq] at hz₀mem
    refine ⟨⟨r₀, hr₀mem.1, ?_, ?_⟩, ⟨z₀, hz₀mem.1, ?_, ?_⟩⟩
    · exact huid
    · show selected_pattern_id m sel.pattern = some r₀.pattern_id
      rw [hp, hr₀mem.2]
    · exact hz₀id
    · show selected_uniform_id m sel.pattern sel.uniform = some z₀.uniform_id
      rw [huid, hz₀mem.2]

/-- C5: every entry newly appended by a successful run of the add or the
finalize handler satisfies referential integrity against the master-data
snapshot: its `uniform_id` belongs to a uniform row whose `pattern_id`
equals the entry's `pattern_id`, and its `size_id` belongs to a size row
whose `uniform_id` equals the entry's `uniform_id`.  The hypotheses `hu`,
`hs` record that the uniform and size strings come from the cascaded
selectbox option lists, which is how the widgets produce them. -/
theorem appended_entry_referential_integrity (m : Masters) (sel : Selections)
    (st st' : SessionState) (e : Entry)
    (hu : sel.uniform ∈ uniform_options m sel.pattern)
    (hs : sel.size ∈ size_options m sel.pattern sel.uniform)
    (h : add_entry_handler m sel st = some st' ∨
         finish_entry_handler m sel st = some st')
    (he : e ∈ st'.entries) (hnew : e ∉ st.entries) :
    (∃ u ∈ m.uniforms,
      e.uniform_id = some u.uniform_id ∧ e.pattern_id = some u.pattern_id) ∧
    (∃ z ∈ m.sizes,
      e.size_id = some z.size_id ∧ e.uniform_id = some z.uniform_id) := by
  have hmain : all_fields_filled sel = true ∧ ∃ q, e = build_entry m sel q := by
    rcases h with h | h
    · rcases add_entry_handler_eq_some h with ⟨_, rfl⟩ | ⟨hf, q, _, rfl⟩
      · exact absurd he hnew
      · rcases List.mem_append.mp he with he | he
        · exact absurd he hnew
        · exact ⟨hf, q, List.mem_singleton.mp he⟩
    · rcases finish_entry_handler_eq_some h with ⟨_, rfl⟩ | ⟨hf, q, _, rfl⟩
      · exact absurd he hnew
      · rcases List.mem_append.mp he with he | he
        · exact absurd he hnew
        · exact ⟨hf, q, List.mem_singleton.mp he⟩
  rcases hmain with ⟨hf, q, rfl⟩
  exact build_entry_integrity m sel q hu hs hf

/-- C5, witness: the integrity conclusion at the concrete add of `sel0` from
the initial state. -/
theorem appended_entry_referential_integrity_witness :
    (∃ u ∈ m0.uniforms,
      (build_entry m0 sel0 0).uniform_id = some u.uniform_id ∧
      (build_entry m0 sel0 0).pattern_id = some u.pattern_id) ∧
    (∃ z ∈ m0.sizes,
      (build_entry m0 sel0 0).size_id = some z.size_id ∧
      (build_entry m0 sel0 0).uniform_id = some z.uniform_id) :=
  appended_entry_referential_integrity m0 sel0 initState st1
    (build_entry m0 sel0 0) (by decide) (by decide)
    (Or.inl (by decide)) (by simp [st1]) (by simp [initState])

/-- C7, counterexample: the quantity `"³"` (U+00B3 SUPERSCRIPT THREE) passes
validation, and the session is in `COLLECTING`, yet neither the add handler
nor the finalize handler produces a successor state — `int("³")` raises — so
`append` does not increase the entries length by 1 for every validated
pending selection. -/
theorem cube_quantity_validated_handlers_produce_no_state :
    all_fields_filled { sel0 with quantity := "³" } = true ∧
    initState.show_success = false ∧
    add_entry_handler m0 { sel0 with quantity := "³" } initState = none ∧
    finish_entry_handler m0 { sel0 with quantity := "³" } initState = none := by
  decide

/-- C7, amended: for every session in `COLLECTING` with a validated pending
selection whose normalized quantity consists of decimal digits (so that the
integer parse succeeds — which is the case for every ASCII-digit quantity;
digit-typed characters such as `'³'` instead make the handler raise), the
add handler appends exactly one entry and stays in `COLLECTING`, the
finalize handler appends exactly one entry and moves to `REVIEWING`
(`show_success = true`), and the reset handler yields an empty entries list
and `COLLECTING`. -/
theorem handlers_transition_characterization (m : Masters) (sel : Selections)
    (st : SessionState) (hf : all_fields_filled sel = true)
    (hd : (quantity_normalized sel.quantity).data.all
      (fun c => (decimalDigitVal c).isSome) = true)
    (hc : st.show_success = false) :
    (∃ st', add_entry_handler m sel st = some st' ∧
      st'.entries.length = st.entries.length + 1 ∧ st'.show_success = false) ∧
    (∃ st2, finish_entry_handler m sel st = some st2 ∧
      st2.entries.length = st.entries.length + 1 ∧ st2.show_success = true) ∧
    ((reset_handler st).entries = [] ∧ (reset_handler st).show_success = false) := by
  have hne : (quantity_normalized sel.quantity).data ≠ [] := by
    intro hnil
    have h1 := (all_fields_filled_eq_true.mp hf).2.2.2.2.2.1
    have h2 := (is_quantity_valid_iff.mp h1).1
    exact h2 (String.ext_iff.mpr (by simp [hnil]))
  have hq := pyInt_some_of_decimal hne hd
  set q : Int := Int.ofNat ((quantity_normalized sel.quantity).data.foldl
    (fun acc c => acc * 10 + (decimalDigitVal c).getD 0) 0) with hqdef
  refine ⟨⟨{ st with
      entries := st.entries ++ [build_entry m sel q]
      current_applicant := some sel.applicant
      reset_trigger := st.reset_trigger + 1 }, ?_, by simp, hc⟩,
    ⟨{ st with
      entries := st.entries ++ [build_entry m sel q]
      show_success := true
      current_applicant := none
      reset_trigger := st.reset_trigger + 1 }, ?_, by simp, rfl⟩, rfl, rfl⟩
  · unfold add_entry_handler
    rw [if_pos hf, hq]
  · unfold finish_entry_handler
    rw [if_pos hf, hq]

/-- C7, witness: the amended theorem at the concrete full-width quantity
"２" from the initial state. -/
theorem handlers_transition_characterization_witness :
    (∃ st', add_entry_handler m0 { sel0 with quantity := "２" } initState = some st' ∧
      st'.entries.length = initState.entries.length + 1 ∧ st'.show_success = false) ∧
    (∃ st2, finish_entry_handler m0 { sel0 with quantity := "２" } initState = some st2 ∧
      st2.entries.length = initState.entries.length + 1 ∧ st2.show_success = true) ∧
    ((reset_handler initState).entries = [] ∧
      (reset_handler initState).show_success = false) :=
  handlers_transition_characterization m0 { sel0 with quantity := "２" } initState
    (by decide) (by decide) rfl

/-- C8: `get_selected_id` returns `None` when the display name is missing
(`None`) or the placeholder; for any other display name it returns `None`
exactly when no row matches, and returns the id of the first row (in table
order) whose name equals the display name whenever a match exists. -/
theorem get_selected_id_characterization {α : Type} (idOf : α → Int)
    (nameOf : α → String) (df : List α) :
    (get_selected_id idOf nameOf df none = none) ∧
    (get_selected_id idOf nameOf df (some placeholder) = none) ∧
    ∀ s : String, s ≠ placeholder →
      ((∀ r ∈ df, nameOf r ≠ s) →
        get_selected_id idOf nameOf df (some s) = none) ∧
      (∀ l₁ r l₂, df = l₁ ++ r :: l₂ → nameOf r = s →
        (∀ r2 ∈ l₁, nameOf r2 ≠ s) →
        get_selected_id idOf nameOf df (some s) = some (idOf r)) := by
  refine ⟨rfl, ?_, ?_⟩
  · show (if placeholder = placeholder then none
          else match df.find? (fun r => nameOf r == placeholder) with
               | some r => some (idOf r)
               | none => none) = none
    rw [if_pos rfl]
  · intro s hne
    constructor
    · intro hnomatch
      have hfind : df.find? (fun r => nameOf r == s) = none :=
        List.find?_eq_none.mpr (fun x hx => by simp [hnomatch x hx])
      show (if s = placeholder then none
            else match df.find? (fun r => nameOf r == s) with
                 | some r => some (idOf r)
                 | none => none) = none
      rw [if_neg hne, hfind]
    · intro l₁ r l₂ hdf hr hl₁
      have hfind : df.find? (fun r2 => nameOf r2 == s) = some r := by
        rw [hdf, List.find?_append]
        have h1 : l₁.find? (fun r2 => nameOf r2 == s) = none :=
          List.find?_eq_none.mpr (fun x hx => by simp [hl₁ x hx])
        rw [h1, List.find?_cons_of_pos _ (by simp [hr])]
        rfl
      show (if s = placeholder then none
            else match df.find? (fun r2 => nameOf r2 == s) with
                 | some r2 => some (idOf r2)
                 | none => none) = some (idOf r)
      rw [if_neg hne, hfind]

/-- C8, witness: the characterization evaluated on the concrete patterns
table: "B" resolves to id 2 (first match), "C" has no match, the
placeholder is unresolved. -/
theorem get_selected_id_characterization_witness :
    get_selected_id Row.id Row.name m0.patterns (some "B") = some 2 ∧
    get_selected_id Row.id Row.name m0.patterns (some "C") = none ∧
    get_selected_id Row.id Row.name m0.patterns (some placeholder) = none := by
  have h := get_selected_id_characterization Row.id Row.name m0.patterns
  refine ⟨?_, (h.2.2 "C" (by decide)).1 (by decide), h.2.1⟩
  exact (h.2.2 "B" (by decide)).2 [⟨1, "A"⟩] ⟨2, "B"⟩ [] rfl rfl (by decide)

/-- C10: in every reachable session state, `show_success = true` implies the
entries list is non-empty: the finalize handler appends its entry in the
same transition that raises the flag, and the reset handler clears the flag
together with the entries, so the review/export phase never renders with an
empty entries list. -/
theorem show_success_implies_entries_nonempty (m : Masters) (st : SessionState)
    (h : Reachable m st) (hs : st.show_success = true) : st.entries ≠ [] := by
  induction h with
  | init => exact absurd hs (by simp [initState])
  | add _ hadd ih =>
    rcases add_entry_handler_eq_some hadd with ⟨_, rfl⟩ | ⟨_, q, _, rfl⟩
    · exact ih hs
    · simp
  | finish _ hfin ih =>
    rcases finish_entry_handler_eq_some hfin with ⟨_, rfl⟩ | ⟨_, q, _, rfl⟩
    · exact ih hs
    · simp
  | reset _ _ _ _ =>
    exact absurd hs (by simp [reset_handler])

/-- C10, witness fixture: the state reached by one finalize of `sel0` from
the initial state. -/
def stF : SessionState :=
  { entries := [build_entry m0 sel0 0], show_success := true
  , current_applicant := none, reset_trigger := 1 }

/-- C10, witness: the invariant applied to the concrete reachable reviewing
state `stF`. -/
theorem show_success_implies_entries_nonempty_witness : stF.entries ≠ [] :=
  show_success_implies_entries_nonempty m0 stF
    (@Reachable.finish m0 initState stF sel0 Reachable.init (by decide)) rfl

end UniformOrder
